import Mathlib

/-!
Verification of the OpenPype Unreal integration fragment: the FAyonStyle
style registry (AyonStyle.h) and the UOpenPypePublishInstanceFactory asset
factory (OpenPypePublishInstanceFactory.h).  The repository ships only the
public headers; the .cpp implementations are not under src/, so each
operation body is modelled from the specification's contract and checked
against it.
-/

namespace AyonStyle

/-- Modelled from the spec: the fixed style-set identifier returned by
`GetStyleSetName()` (the implementation is missing from src/; the spec calls
it a process-constant identifier used to key host registration). -/
def ayonStyleSetName : String := "AyonStyle"

/-- Modelled from the spec: the fixed context identifier returned by
`GetContextName()` (implementation missing from src/). -/
def ayonContextName : String := "Ayon"

/-- A brush/icon resource: a renderable visual asset referenced by a
resource path (spec glossary). -/
structure FSlateBrush where
  resourcePath : String
deriving DecidableEq, Repr

/-- The StyleSet: a mapping from logical resource name to a brush descriptor,
kept as an association list whose keys are unique by construction. -/
structure FSlateStyleSet where
  icons : List (String × FSlateBrush)
deriving DecidableEq, Repr

/-- The process-wide state touched by FAyonStyle: the singleton
`AyonStyleInstance` (a `TUniquePtr`, hence `Option`) and the host's
style-lookup subsystem, modelled as the list of registered style-set names. -/
structure AyonState where
  AyonStyleInstance : Option FSlateStyleSet
  slateStyleRegistry : List String
deriving DecidableEq, Repr

/-- The state before any call: no singleton constructed, nothing registered. -/
def initialState : AyonState := ⟨none, []⟩

/-- Modelled from the spec: the internal `Create` step (implementation
missing from src/) builds the singleton StyleSet and populates default icon
mappings; the defaults are a parameter since the spec does not list them. -/
def Create (defaults : List (String × String)) : FSlateStyleSet :=
  ⟨defaults.map (fun p => (p.1, ⟨p.2⟩))⟩

/-- Modelled from the spec: `Initialize()` (implementation missing from
src/) constructs the singleton StyleSet via `Create` if not already
constructed and registers it with the host's style-lookup subsystem. -/
def Initialize (defaults : List (String × String)) (s : AyonState) : AyonState :=
  match s.AyonStyleInstance with
  | some _ => s
  | none =>
    { AyonStyleInstance := some (Create defaults),
      slateStyleRegistry := ayonStyleSetName :: s.slateStyleRegistry }

/-- Modelled from the spec: `Shutdown()` (implementation missing from src/)
unregisters the StyleSet from the host subsystem and releases the singleton;
it is a no-op when `Initialize` was never called. -/
def Shutdown (s : AyonState) : AyonState :=
  match s.AyonStyleInstance with
  | some _ =>
    { AyonStyleInstance := none,
      slateStyleRegistry := s.slateStyleRegistry.erase ayonStyleSetName }
  | none => s

/-- Modelled from the spec: `Get()` (implementation missing from src/)
returns a read-only reference to the active style source; outside the
Active state the call is a precondition violation, modelled as `none`. -/
def Get (s : AyonState) : Option FSlateStyleSet := s.AyonStyleInstance

/-- The registry is Active exactly when the singleton exists. -/
def isActive (s : AyonState) : Bool := s.AyonStyleInstance.isSome

/-- Modelled from the spec: `GetStyleSetName()` is a pure accessor returning
the fixed identifier whatever the registry state is. -/
def GetStyleSetName (_ : AyonState) : String := ayonStyleSetName

/-- Modelled from the spec: `GetContextName()` is a pure accessor returning
the fixed identifier whatever the registry state is. -/
def GetContextName (_ : AyonState) : String := ayonContextName

/-- Insert-or-overwrite on the icon association list: the first binding of
`name` is replaced, otherwise the pair is appended at the end. -/
def setBrush : List (String × FSlateBrush) → String → FSlateBrush → List (String × FSlateBrush)
  | [], name, b => [(name, b)]
  | (n, b0) :: rest, name, b =>
    if n = name then (name, b) :: rest else (n, b0) :: setBrush rest name b

/-- Modelled from the spec: `SetIcon(name, resourcePath)` (implementation
missing from src/) inserts or overwrites the mapping from `name` to the
brush built from `resourcePath`; outside the Active state it is ignored
(the spec leaves that case to the implementer as undefined/ignored). -/
def SetIcon (name resourcePath : String) (s : AyonState) : AyonState :=
  match s.AyonStyleInstance with
  | some ss =>
    { s with AyonStyleInstance := some ⟨setBrush ss.icons name ⟨resourcePath⟩⟩ }
  | none => s

/-- Lookup of a name in the icon association list. -/
def lookupIcon : List (String × FSlateBrush) → String → Option FSlateBrush
  | [], _ => none
  | (n, b) :: rest, name => if n = name then some b else lookupIcon rest name

/-- Lookup of a name in a StyleSet. -/
def lookupBrush (ss : FSlateStyleSet) (name : String) : Option FSlateBrush :=
  lookupIcon ss.icons name

/-- A concrete Active state with an empty StyleSet, used to instantiate
hypotheses at concrete inputs. -/
def sampleActive : AyonState := ⟨some ⟨[]⟩, [ayonStyleSetName]⟩

/-- The empty StyleSet. -/
def emptySet : FSlateStyleSet := ⟨[]⟩

/-- The public entry points of FAyonStyle, as calls of the state machine. -/
inductive AyonCall where
  | initOp (defaults : List (String × String))
  | shutdownOp
  | setIconOp (name resourcePath : String)
  | getOp
  | getStyleSetNameOp
  | getContextNameOp
deriving DecidableEq, Repr

/-- Effect of each public entry point on the process-wide state; the three
observers return values without touching the state (`Get` hands out a
`const` reference; the two name accessors return fixed identifiers). -/
def stepState : AyonCall → AyonState → AyonState
  | .initOp d, s => Initialize d s
  | .shutdownOp, s => Shutdown s
  | .setIconOp n p, s => SetIcon n p s
  | .getOp, s => s
  | .getStyleSetNameOp, s => s
  | .getContextNameOp, s => s

/-- Running a sequence of calls from a state. -/
def runCalls (cs : List AyonCall) (s : AyonState) : AyonState :=
  cs.foldl (fun t c => stepState c t) s

lemma lookupIcon_setBrush_self (l : List (String × FSlateBrush)) (name : String)
    (b : FSlateBrush) : lookupIcon (setBrush l name b) name = some b := by
  induction l with
  | nil => simp [setBrush, lookupIcon]
  | cons hd tl ih =>
    obtain ⟨n, b0⟩ := hd
    by_cases hn : n = name
    · simp [setBrush, hn, lookupIcon]
    · simp [setBrush, hn, lookupIcon, ih]

lemma lookupIcon_setBrush_other (l : List (String × FSlateBrush)) (name n' : String)
    (b : FSlateBrush) (hne : n' ≠ name) :
    lookupIcon (setBrush l name b) n' = lookupIcon l n' := by
  induction l with
  | nil => simp [setBrush, lookupIcon, Ne.symm hne]
  | cons hd tl ih =>
    obtain ⟨n, b0⟩ := hd
    by_cases hn : n = name
    · subst hn
      simp [setBrush, lookupIcon, Ne.symm hne]
    · simp [setBrush, hn, lookupIcon, ih]

end AyonStyle

namespace PublishInstance

/-- A host class identity: its name and the names of all its ancestors,
enough to decide the host's is-child-of (compatible subclass) relation. -/
structure UClass where
  className : String
  superClasses : List String
deriving DecidableEq, Repr

/-- The host's subclass-compatibility check: a class is a child of a target
when it is the target itself or the target is among its ancestors. -/
def UClass.isChildOf (c target : UClass) : Bool :=
  c.className = target.className || c.superClasses.contains target.className

/-- The publish-instance asset class this factory declares support for. -/
def publishInstanceClass : UClass := ⟨"UOpenPypePublishInstance", ["UObject"]⟩

/-- The factory's fixed configuration: supported class and creation flags,
set once at construction (spec: no state beyond this configuration). -/
structure UOpenPypePublishInstanceFactory where
  SupportedClass : UClass
  bCreateNew : Bool
  bEditAfterNew : Bool
deriving DecidableEq, Repr

/-- Modelled from the spec: the constructor (implementation missing from
src/) configures the factory for the single asset class it supports and
sets the creation flags. -/
def mkPublishInstanceFactory : UOpenPypePublishInstanceFactory :=
  { SupportedClass := publishInstanceClass, bCreateNew := true, bEditAfterNew := true }

/-- A constructed asset object: its dynamic class, parent container, name
and flags, owned by the host once returned. -/
structure UObjectRef where
  objClass : UClass
  objParent : String
  objName : String
  objFlags : Nat
deriving DecidableEq, Repr

/-- The message reported through the warning sink when construction cannot
proceed. -/
def factoryWarnMessage : String := "OpenPypePublishInstanceFactory: unsupported class"

/-- Modelled from the spec: `FactoryCreateNew` (implementation missing from
src/) constructs a new instance of the publish-instance asset type parented
as requested when the given class is the supported class or a compatible
subclass; otherwise it reports via the supplied warning sink and returns
null.  The result carries the possibly-null object, the warning sink, and
the factory state (returned unchanged: the factory retains nothing). -/
def FactoryCreateNew (f : UOpenPypePublishInstanceFactory) (InClass : UClass)
    (InParent InName : String) (Flags : Nat) (_Context : Option String)
    (Warn : List String) :
    Option UObjectRef × List String × UOpenPypePublishInstanceFactory :=
  if InClass.isChildOf f.SupportedClass then
    (some ⟨f.SupportedClass, InParent, InName, Flags⟩, Warn, f)
  else
    (none, Warn ++ [factoryWarnMessage], f)

/-- Modelled from the spec: `ShouldShowInNewMenu` (implementation missing
from src/) is a pure predicate returning a fixed design-time boolean; the
pair makes the absence of state mutation explicit. -/
def ShouldShowInNewMenu (f : UOpenPypePublishInstanceFactory) :
    Bool × UOpenPypePublishInstanceFactory := (true, f)

end PublishInstance

namespace AyonStyle

/-- Claim C1: `Initialize()` followed by `Shutdown()` returns the registry to
the Uninitialized state: the round trip restores the state exactly, and
`Get()` is invalid (none) after it, exactly as it was before `Initialize()`
was ever called. -/
theorem init_shutdown_roundtrip (d : List (String × String)) (s : AyonState)
    (h : s.AyonStyleInstance = none) :
    Shutdown ( Initialize d s) = s ∧
    Get (Shutdown ( Initialize d s)) = none ∧ Get s = none := by
  obtain ⟨inst, reg⟩ := s
  simp only at h
  subst h
  refine ⟨?_, ?_, rfl⟩
  · simp [ Initialize, Shutdown, List.erase_cons_head]
  · simp [ Initialize, Shutdown, Get]

/-- Witness for C1 at the concrete initial state. -/
theorem init_shutdown_roundtrip_witness :
    initialState.AyonStyleInstance = none ∧
    (Shutdown ( Initialize [] initialState) = initialState ∧
      Get (Shutdown ( Initialize [] initialState)) = none ∧ Get initialState = none) :=
  ⟨rfl, init_shutdown_roundtrip [] initialState rfl⟩

/-- Claim C2: `Initialize()` is idempotent: a second call without an
intervening `Shutdown()` leaves the state unchanged (the internal `Create`
step runs only if the singleton is not already constructed, and `Option`
holds at most one StyleSet), and `Get()` after either call returns the same
underlying registry. -/
theorem init_idempotent (d d' : List (String × String)) (s : AyonState) :
    Initialize d' ( Initialize d s) = Initialize d s ∧
    Get ( Initialize d' ( Initialize d s)) = Get ( Initialize d s) := by
  cases h : s.AyonStyleInstance <;> simp [ Initialize, h, Get]

/-- Claim C3: `Get()` before `Initialize()` or after `Shutdown()` is invalid
(a precondition violation, modelled as `none`); under the precondition that
the registry is Active it returns the active style source. -/
theorem get_requires_active (s t : AyonState) (h : isActive s = true) :
    Get initialState = none ∧ Get (Shutdown t) = none ∧ ∃ ss, Get s = some ss := by
  refine ⟨rfl, ?_, ?_⟩
  · cases ht : t.AyonStyleInstance <;> simp [Shutdown, ht, Get]
  · cases hs : s.AyonStyleInstance with
    | none => simp [isActive, hs] at h
    | some ss => exact ⟨ss, hs⟩

/-- Witness for C3 at concrete states. -/
theorem get_requires_active_witness :
    isActive ( Initialize [] initialState) = true ∧
    (Get initialState = none ∧ Get (Shutdown initialState) = none ∧
      ∃ ss, Get ( Initialize [] initialState) = some ss) :=
  ⟨rfl, get_requires_active ( Initialize [] initialState) initialState rfl⟩

/-- Claim C4: `Shutdown()` is safe when `Initialize()` was never called: in
the Uninitialized state it is a no-op leaving the state (singleton and host
registration) unchanged. -/
theorem shutdown_noop_before_init (s : AyonState) (h : s.AyonStyleInstance = none) :
    Shutdown s = s := by
  simp [Shutdown, h]

/-- Witness for C4 at the concrete initial state. -/
theorem shutdown_noop_before_init_witness :
    initialState.AyonStyleInstance = none ∧ Shutdown initialState = initialState :=
  ⟨rfl, shutdown_noop_before_init initialState rfl⟩

/-- Claim C5: in the Active state, `SetIcon(name, resourcePath)` inserts or
overwrites the mapping from `name` to a brush built from `resourcePath`
(other names are untouched), so a subsequent lookup of `name` via `Get()`
returns a brush referencing `resourcePath`; calling it twice on the same
name, the second path wins. -/
theorem setIcon_insert_overwrite (name p p' : String) (s : AyonState)
    (ss : FSlateStyleSet) (h : Get s = some ss) :
    (∃ ss1, Get (SetIcon name p s) = some ss1 ∧
      lookupBrush ss1 name = some ⟨p⟩ ∧
      ∀ n', n' ≠ name → lookupBrush ss1 n' = lookupBrush ss n') ∧
    (∃ ss2, Get (SetIcon name p' (SetIcon name p s)) = some ss2 ∧
      lookupBrush ss2 name = some ⟨p'⟩) := by
  have hs : s.AyonStyleInstance = some ss := h
  constructor
  · refine ⟨⟨setBrush ss.icons name ⟨p⟩⟩, ?_, ?_, ?_⟩
    · simp [SetIcon, hs, Get]
    · simpa [lookupBrush] using lookupIcon_setBrush_self ss.icons name ⟨p⟩
    · intro n' hne
      simpa [lookupBrush] using lookupIcon_setBrush_other ss.icons name n' ⟨p⟩ hne
  · refine ⟨⟨setBrush (setBrush ss.icons name ⟨p⟩) name ⟨p'⟩⟩, ?_, ?_⟩
    · simp [SetIcon, hs, Get]
    · simpa [lookupBrush] using
        lookupIcon_setBrush_self (setBrush ss.icons name ⟨p⟩) name ⟨p'⟩

/-- Witness for C5 at the concrete Active state and the spec's example
icon name and path. -/
theorem setIcon_insert_overwrite_witness :
    Get sampleActive = some emptySet ∧
    ((∃ ss1,
      Get (SetIcon "toolbar.publish" "/Icons/Publish" sampleActive) = some ss1 ∧
      lookupBrush ss1 "toolbar.publish" = some ⟨"/Icons/Publish"⟩ ∧
      ∀ n', n' ≠ "toolbar.publish" → lookupBrush ss1 n' = lookupBrush emptySet n') ∧
    (∃ ss2,
      Get (SetIcon "toolbar.publish" "/Icons/PublishB"
        (SetIcon "toolbar.publish" "/Icons/Publish" sampleActive)) = some ss2 ∧
      lookupBrush ss2 "toolbar.publish" = some ⟨"/Icons/PublishB"⟩)) :=
  ⟨rfl, setIcon_insert_overwrite "toolbar.publish" "/Icons/Publish" "/Icons/PublishB"
    sampleActive emptySet rfl⟩

end AyonStyle

namespace PublishInstance

/-- Claim C6: `FactoryCreateNew` given the declared supported class (or a
compatible subclass) and a parent container returns a non-null newly
constructed object whose dynamic type equals the declared class and whose
parent equals the supplied container; the warning sink and the factory are
returned unchanged (ownership transfers to the host, the factory retains
nothing). -/
theorem factoryCreateNew_success (f : UOpenPypePublishInstanceFactory) (c : UClass)
    (par nm : String) (fl : Nat) (ctx : Option String) (w : List String)
    (h : c.isChildOf f.SupportedClass = true) :
    ∃ obj, (FactoryCreateNew f c par nm fl ctx w).1 = some obj ∧
      obj.objClass = f.SupportedClass ∧ obj.objParent = par ∧
      (FactoryCreateNew f c par nm fl ctx w).2.1 = w ∧
      (FactoryCreateNew f c par nm fl ctx w).2.2 = f := by
  refine ⟨⟨f.SupportedClass, par, nm, fl⟩, ?_, rfl, rfl, ?_, ?_⟩ <;>
    simp [FactoryCreateNew, h]

/-- Witness for C6 at the factory's declared class. -/
theorem factoryCreateNew_success_witness :
    publishInstanceClass.isChildOf mkPublishInstanceFactory.SupportedClass = true ∧
    ∃ obj, (FactoryCreateNew mkPublishInstanceFactory publishInstanceClass
        "/Game/Pkg" "Inst" 0 none []).1 = some obj ∧
      obj.objClass = mkPublishInstanceFactory.SupportedClass ∧
      obj.objParent = "/Game/Pkg" ∧
      (FactoryCreateNew mkPublishInstanceFactory publishInstanceClass
        "/Game/Pkg" "Inst" 0 none []).2.1 = [] ∧
      (FactoryCreateNew mkPublishInstanceFactory publishInstanceClass
        "/Game/Pkg" "Inst" 0 none []).2.2 = mkPublishInstanceFactory :=
  ⟨by decide, factoryCreateNew_success mkPublishInstanceFactory publishInstanceClass
    "/Game/Pkg" "Inst" 0 none [] (by decide)⟩

/-- Claim C7: when construction cannot proceed (the given class is not the
supported class or a compatible subclass), `FactoryCreateNew` reports the
failure via the supplied warning sink and returns null; and a null return
happens only on that unsupported-class path (no other error path exists). -/
theorem factoryCreateNew_failure (f : UOpenPypePublishInstanceFactory) (c : UClass)
    (par nm : String) (fl : Nat) (ctx : Option String) (w : List String)
    (h : c.isChildOf f.SupportedClass = false) :
    (FactoryCreateNew f c par nm fl ctx w).1 = none ∧
    (FactoryCreateNew f c par nm fl ctx w).2.1 = w ++ [factoryWarnMessage] ∧
    ∀ (g : UOpenPypePublishInstanceFactory) (c' : UClass) (par' nm' : String)
      (fl' : Nat) (ctx' : Option String) (w' : List String),
      (FactoryCreateNew g c' par' nm' fl' ctx' w').1 = none →
      UClass.isChildOf c' g.SupportedClass = false := by
  refine ⟨?_, ?_, ?_⟩
  · simp [FactoryCreateNew, h]
  · simp [FactoryCreateNew, h]
  · intro g c' par' nm' fl' ctx' w' hnone
    cases hc : UClass.isChildOf c' g.SupportedClass with
    | false => rfl
    | true => simp [FactoryCreateNew, hc] at hnone

/-- Witness for C7 at a concrete unsupported class. -/
theorem factoryCreateNew_failure_witness :
    UClass.isChildOf ⟨"UFoo", []⟩ mkPublishInstanceFactory.SupportedClass = false ∧
    ((FactoryCreateNew mkPublishInstanceFactory ⟨"UFoo", []⟩ "/Game/Pkg" "Inst"
        0 none []).1 = none ∧
      (FactoryCreateNew mkPublishInstanceFactory ⟨"UFoo", []⟩ "/Game/Pkg" "Inst"
        0 none []).2.1 = [] ++ [factoryWarnMessage] ∧
      ∀ (g : UOpenPypePublishInstanceFactory) (c' : UClass) (par' nm' : String)
        (fl' : Nat) (ctx' : Option String) (w' : List String),
        (FactoryCreateNew g c' par' nm' fl' ctx' w').1 = none →
        UClass.isChildOf c' g.SupportedClass = false) :=
  ⟨by decide, factoryCreateNew_failure mkPublishInstanceFactory ⟨"UFoo", []⟩
    "/Game/Pkg" "Inst" 0 none [] (by decide)⟩

/-- Claim C8: `ShouldShowInNewMenu()` is a pure predicate: every call, on any
factory value, returns the same fixed boolean, and no call mutates the
factory state. -/
theorem shouldShowInNewMenu_pure (f g : UOpenPypePublishInstanceFactory) :
    (ShouldShowInNewMenu f).1 = (ShouldShowInNewMenu g).1 ∧
    (ShouldShowInNewMenu f).2 = f :=
  ⟨rfl, rfl⟩

end PublishInstance

namespace AyonStyle

/-- Claim C9: `GetStyleSetName()` and `GetContextName()` are pure accessors:
each returns the same fixed identifier in every state, in particular after
any sequence of public calls (any number of Initialize/Shutdown cycles,
including in the Uninitialized state). -/
theorem styleNames_constant (cs : List AyonCall) (s t : AyonState) :
    GetStyleSetName (runCalls cs s) = GetStyleSetName s ∧
    GetContextName (runCalls cs s) = GetContextName s ∧
    GetStyleSetName s = GetStyleSetName t ∧
    GetContextName s = GetContextName t ∧
    GetStyleSetName s = ayonStyleSetName ∧
    GetContextName s = ayonContextName :=
  ⟨rfl, rfl, rfl, rfl, rfl, rfl⟩

/-- Claim C10: `Get`, `GetStyleSetName` and `GetContextName` leave the
process-wide state (and hence the name-to-brush mapping) unchanged, and
`SetIcon` is the only public entry point that mutates the mapping: any call
that keeps the registry Active and changes the state is a `SetIcon` call. -/
theorem setIcon_only_mutator (c c' : AyonCall) (s s' : AyonState)
    (hobs : c = AyonCall.getOp ∨ c = AyonCall.getStyleSetNameOp ∨
      c = AyonCall.getContextNameOp)
    (h1 : isActive s' = true) (h2 : isActive (stepState c' s') = true)
    (h3 : stepState c' s' ≠ s') :
    stepState c s = s ∧ ∃ n p, c' = AyonCall.setIconOp n p := by
  constructor
  · rcases hobs with h | h | h <;> subst h <;> rfl
  · obtain ⟨ss, hss⟩ : ∃ ss, s'.AyonStyleInstance = some ss := by
      cases hx : s'.AyonStyleInstance with
      | none => simp [isActive, hx] at h1
      | some ss => exact ⟨ss, rfl⟩
    cases c' with
    | initOp d => exact absurd (by simp [stepState, Initialize, hss]) h3
    | shutdownOp => simp [stepState, Shutdown, hss, isActive] at h2
    | setIconOp n p => exact ⟨n, p, rfl⟩
    | getOp => exact absurd rfl h3
    | getStyleSetNameOp => exact absurd rfl h3
    | getContextNameOp => exact absurd rfl h3

/-- Witness for C10: a `Get` call at the initial state and a mutating
`SetIcon` call at a concrete Active state. -/
theorem setIcon_only_mutator_witness :
    isActive sampleActive = true ∧
    stepState (AyonCall.setIconOp "a" "b") sampleActive ≠ sampleActive ∧
    (stepState AyonCall.getOp initialState = initialState ∧
      ∃ n p, AyonCall.setIconOp "a" "b" = AyonCall.setIconOp n p) :=
  ⟨rfl, by decide, setIcon_only_mutator AyonCall.getOp (AyonCall.setIconOp "a" "b")
    initialState sampleActive (Or.inl rfl) rfl rfl (by decide)⟩

end AyonStyle
